import Mathlib

/-!
Verification development for the Cortensor OpenAI-compatible provider
(`src/transformers.ts`, `src/provider.ts`, `src/constants.ts`).

The TypeScript sources are shallowly embedded: JavaScript strings become
`String`, arrays become `List`, optional values become `Option`, JS numbers
become `Nat`, `Int` or `Rat` as appropriate, and fallible or effectful code
(`fetch`, thrown errors) becomes explicit outcome parameters and
`Except`/`Option` results.  JS truthiness tests on strings and numbers are
translated explicitly (`s = ""`, `n = 0` are the falsy cases).
-/

namespace Cortensor

/-- Roles carried by chat messages (`ModelMessage.role` in the sources). -/
inductive Role
  | system
  | user
  | assistant
  | tool
deriving DecidableEq, Repr

/-- One entry of an array-shaped message content.  `partStr` is a raw string
entry; `partObj tag? text?` is an object whose optional `type` key holds `tag?`
and whose optional `text` key holds `text?`; `partOther` is any other value
(`null`, a number, ...). -/
inductive ContentPart
  | partStr (s : String)
  | partObj (tag? : Option String) (text? : Option String)
  | partOther
deriving DecidableEq, Repr

/-- Message content: a plain string, an array of parts, or any other shape
(the `return ''` branch of `extractMessageContent`). -/
inductive MessageContent
  | str (s : String)
  | arr (parts : List ContentPart)
  | other
deriving DecidableEq, Repr

/-- A chat message (`ModelMessage` from the `ai` package, as the transformer
uses it: only `role` and `content` are read). -/
structure ModelMessage where
  role : Role
  content : MessageContent
deriving DecidableEq, Repr

/-- JS whitespace test used by `String.prototype.trim`, modelled by the ASCII
whitespace characters. -/
def isJsWhitespace (c : Char) : Bool :=
  c = ' ' ∨ c = '\t' ∨ c = '\n' ∨ c = '\r'

/-- Character-list body of `String.prototype.trim`: drop whitespace from both
ends. -/
def jsTrimChars (l : List Char) : List Char :=
  ((l.dropWhile isJsWhitespace).reverse.dropWhile isJsWhitespace).reverse

/-- JS `s.trim()`. -/
def jsTrimStr (s : String) : String :=
  String.mk (jsTrimChars s.data)

/-- Filter of `extractMessageContent` (`transformers.ts` lines 235-243): keep
raw strings, and objects that have a `type` key equal to `"text"`. -/
def keepPart : ContentPart → Bool
  | .partStr _ => true
  | .partObj tag? _ => tag? == some "text"
  | .partOther => false

/-- Map of `extractMessageContent` (`transformers.ts` lines 244-250): a raw
string maps to itself, an object to `part.text || ''`. -/
def partToString : ContentPart → String
  | .partStr s => s
  | .partObj _ text? => text?.getD ""
  | .partOther => ""

/-- `extractMessageContent` (`transformers.ts` lines 228-256): a string content
is returned verbatim; an array is filtered, mapped, joined with one space and
trimmed; any other shape yields `""`.  Total by construction (the function
never throws). -/
def extractMessageContent (message : ModelMessage) : String :=
  match message.content with
  | .str s => s
  | .arr parts =>
      jsTrimStr (String.intercalate " " ((parts.filter keepPart).map partToString))
  | .other => ""

/-- The spec's description of the array case as one pass: keep entries that
are raw strings or objects tagged `type: "text"`, mapped to their strings. -/
def specPartText : ContentPart → Option String
  | .partStr s => some s
  | .partObj tag? text? => if tag? = some "text" then some (text?.getD "") else none
  | .partOther => none

theorem filter_map_eq_specFilterMap (parts : List ContentPart) :
    (parts.filter keepPart).map partToString = parts.filterMap specPartText := by
  induction parts with
  | nil => rfl
  | cons p ps ih =>
      cases p with
      | partStr s => simp [keepPart, partToString, specPartText, List.filter, ih]
      | partObj tag? text? =>
          by_cases h : tag? = some "text"
          · simp [keepPart, partToString, specPartText, List.filter, h, ih]
          · have hb : (tag? == some "text") = false := by
              simpa using h
            simp [keepPart, partToString, specPartText, List.filter, h, hb, ih]
      | partOther => simp [keepPart, specPartText, List.filter, ih]

/-- C6: `extractMessageContent` is total and matches its contract: a string
content is returned verbatim (identity, no trimming); an array keeps exactly
the raw-string entries and the objects tagged `type: "text"`, mapped to their
strings, joined with a single space and trimmed; any other shape yields the
empty string.  Totality (never throws) holds by construction in the
embedding. -/
theorem extractMessageContent_contract :
    (∀ r s, extractMessageContent ⟨r, .str s⟩ = s)
    ∧ (∀ r parts, extractMessageContent ⟨r, .arr parts⟩ =
        jsTrimStr (String.intercalate " " (parts.filterMap specPartText)))
    ∧ (∀ r, extractMessageContent ⟨r, .other⟩ = "") := by
  refine ⟨fun r s => rfl, fun r parts => ?_, fun r => rfl⟩
  simp [extractMessageContent, filter_map_eq_specFilterMap]

/-- Case-insensitive anchored match: does `p` occur at the head of `s`
(comparing characters through `Char.toLower`, as the `i` regex flag does)? -/
def matchesAtCI : List Char → List Char → Bool
  | [], _ => true
  | _ :: _, [] => false
  | p :: ps, c :: cs => (p.toLower == c.toLower) && matchesAtCI ps cs

/-- Case-insensitive substring test, the embedding of `/pattern/i.test(s)` for
a literal pattern. -/
def containsCI (p : List Char) : List Char → Bool
  | [] => matchesAtCI p []
  | c :: cs => matchesAtCI p (c :: cs) || containsCI p cs

/-- Fuel-driven engine of the global replace: structural recursion on the
fuel keeps the function computable by the kernel.  The fuel is always
instantiated with the length of the scanned list, which bounds the number of
steps. -/
def replaceAllCIGo (p : List Char) : Nat → List Char → List Char
  | _, [] => []
  | 0, s => s
  | fuel + 1, c :: cs =>
      if matchesAtCI p (c :: cs) then
        replaceAllCIGo p fuel (cs.drop (p.length - 1))
      else
        c :: replaceAllCIGo p fuel cs

/-- Single left-to-right pass of `s.replace(/pattern/gi, '')` for a literal
pattern: at each position, if the pattern matches it is deleted and scanning
resumes after the match, otherwise the character is kept. -/
def replaceAllCI (p s : List Char) : List Char :=
  replaceAllCIGo p s.length s

/-- String-level wrappers for the two regex operations of the directive
parser. -/
def jsTestCI (pat s : String) : Bool :=
  containsCI pat.data s.data

/-- JS `s.replace(/pat/gi, '')` for a literal `pat`. -/
def jsReplaceCI (pat s : String) : String :=
  String.mk (replaceAllCI pat.data s.data)

/-- The marker removal of `extractSearchDirectives` (`transformers.ts` line
71): remove `[search]` occurrences, then `[no-search]` occurrences. -/
def removeMarkersCI (s : String) : String :=
  jsReplaceCI "[no-search]" (jsReplaceCI "[search]" s)

/-- Cleaned content of the last message: markers removed, then trimmed. -/
def cleanMarkerContent (s : String) : String :=
  jsTrimStr (removeMarkersCI s)

/-- Web-search mode (`webSearch.mode`): `prompt`, `force` or `disable`. -/
inductive SearchMode
  | prompt
  | force
  | disable
deriving DecidableEq, Repr

/-- A web search result (`WebSearchResult` in `types`). -/
structure WebSearchResult where
  title : String
  url : String
  snippet : String
  publishedDate : Option String := none
deriving DecidableEq, Repr

/-- Outcome of invoking the pluggable search provider: it either returns a
result list or throws with a message. -/
inductive SearchProviderOutcome
  | ok (results : List WebSearchResult)
  | raise (msg : String)

/-- `webSearch` configuration.  The provider callback (a function, or an
object whose `search` method both `handleWebSearch` branches call with the
same arguments) is embedded as its behaviour: a function from the query and
`maxResults` to an outcome. -/
structure WebSearchConfig where
  mode : SearchMode
  provider : Option (String → Nat → SearchProviderOutcome) := none
  maxResults : Option Nat := none

/-- Result of `extractSearchDirectives`. -/
structure SearchDirectives where
  shouldSearch : Bool
  cleanedMessages : List ModelMessage
deriving Repr

/-- `extractSearchDirectives` (`transformers.ts` lines 35-100): with no config
or no last message the input passes through with `shouldSearch = false`;
otherwise the last message's content is scanned for the case-insensitive
markers `[search]` and `[no-search]`, the markers are stripped and trimmed,
and the mode decides: `force` always searches, `disable` never, `prompt`
searches iff the positive marker is present and the negative one absent. -/
def extractSearchDirectives (messages : List ModelMessage)
    (webSearchConfig : Option WebSearchConfig) : SearchDirectives :=
  match webSearchConfig with
  | none => ⟨false, messages⟩
  | some cfg =>
      match messages.getLast? with
      | none => ⟨false, messages⟩
      | some lastMessage =>
          let originalContent := extractMessageContent lastMessage
          let hasSearchMarker := jsTestCI "[search]" originalContent
          let hasNoSearchMarker := jsTestCI "[no-search]" originalContent
          let cleanedContent := cleanMarkerContent originalContent
          let shouldSearch :=
            match cfg.mode with
            | .force => true
            | .disable => false
            | .prompt =>
                if hasNoSearchMarker then false
                else if hasSearchMarker then true
                else false
          ⟨shouldSearch,
            messages.dropLast ++ [{ lastMessage with content := .str cleanedContent }]⟩

theorem replaceAllCIGo_sublist (p : List Char) (fuel : Nat) (s : List Char) :
    (replaceAllCIGo p fuel s).Sublist s := by
  induction fuel generalizing s with
  | zero => cases s <;> simp [replaceAllCIGo]
  | succ n ih =>
      cases s with
      | nil => simp [replaceAllCIGo]
      | cons c cs =>
          by_cases h : matchesAtCI p (c :: cs) = true
          · have step : replaceAllCIGo p (n + 1) (c :: cs)
                = replaceAllCIGo p n (cs.drop (p.length - 1)) := by
              simp [replaceAllCIGo, h]
            rw [step]
            exact ((ih _).trans (List.drop_sublist _ _)).trans (List.sublist_cons_self _ _)
          · have step : replaceAllCIGo p (n + 1) (c :: cs)
                = c :: replaceAllCIGo p n cs := by
              simp [replaceAllCIGo, h]
            rw [step]
            exact (ih cs).cons₂ c

theorem replaceAllCI_sublist (p s : List Char) : (replaceAllCI p s).Sublist s :=
  replaceAllCIGo_sublist p s.length s

theorem jsTrimChars_sublist (l : List Char) : (jsTrimChars l).Sublist l := by
  have h1 : (l.dropWhile isJsWhitespace).Sublist l := List.dropWhile_sublist _
  have h2 : ((l.dropWhile isJsWhitespace).reverse.dropWhile isJsWhitespace).Sublist
      (l.dropWhile isJsWhitespace).reverse := List.dropWhile_sublist _
  have h3 := h2.reverse
  rw [List.reverse_reverse] at h3
  exact h3.trans h1

/-- Cleaning the last message only ever deletes characters: the cleaned
content is a subsequence of the original content. -/
theorem cleanMarkerContent_sublist (s : String) :
    (cleanMarkerContent s).data.Sublist s.data := by
  have h1 : ((jsReplaceCI "[search]" s).data).Sublist s.data :=
    replaceAllCI_sublist _ _
  have h2 : ((jsReplaceCI "[no-search]" (jsReplaceCI "[search]" s)).data).Sublist
      (jsReplaceCI "[search]" s).data :=
    replaceAllCI_sublist _ _
  exact (jsTrimChars_sublist _).trans (h2.trans h1)

/-- C1: mode precedence of the search decision.  With a config supplied and at
least one message, `force` always searches, `disable` never searches, and
`prompt` searches iff the last message's extracted content contains the
positive marker `[search]` (case-insensitively) and does not contain the
negative marker `[no-search]`; the negative marker overrides the positive one
and the default is no search. -/
theorem extractSearchDirectives_mode_precedence
    (messages : List ModelMessage) (last : ModelMessage)
    (h : messages.getLast? = some last)
    (provider : Option (String → Nat → SearchProviderOutcome))
    (maxResults : Option Nat) :
    (extractSearchDirectives messages (some ⟨.force, provider, maxResults⟩)).shouldSearch = true
    ∧ (extractSearchDirectives messages
        (some ⟨.disable, provider, maxResults⟩)).shouldSearch = false
    ∧ (extractSearchDirectives messages (some ⟨.prompt, provider, maxResults⟩)).shouldSearch =
        (jsTestCI "[search]" (extractMessageContent last)
          && !jsTestCI "[no-search]" (extractMessageContent last)) := by
  refine ⟨?_, ?_, ?_⟩
  · simp only [extractSearchDirectives, h]
  · simp only [extractSearchDirectives, h]
  · simp only [extractSearchDirectives, h]
    cases hpos : jsTestCI "[search]" (extractMessageContent last) <;>
      cases hneg : jsTestCI "[no-search]" (extractMessageContent last) <;>
        simp [hpos, hneg]

/-- Witness for C1 at a concrete one-message conversation. -/
theorem extractSearchDirectives_mode_precedence_witness :
    (extractSearchDirectives [⟨.user, .str "[search] hi"⟩]
        (some ⟨.force, none, none⟩)).shouldSearch = true
    ∧ (extractSearchDirectives [⟨.user, .str "[search] hi"⟩]
        (some ⟨.disable, none, none⟩)).shouldSearch = false
    ∧ (extractSearchDirectives [⟨.user, .str "[search] hi"⟩]
        (some ⟨.prompt, none, none⟩)).shouldSearch =
        (jsTestCI "[search]" (extractMessageContent ⟨.user, .str "[search] hi"⟩)
          && !jsTestCI "[no-search]" (extractMessageContent ⟨.user, .str "[search] hi"⟩)) :=
  extractSearchDirectives_mode_precedence [⟨.user, .str "[search] hi"⟩]
    ⟨.user, .str "[search] hi"⟩ (by decide) none none

/-- C5 counterexample: marker removal is a single left-to-right pass, so text
adjacent to a removed occurrence can re-form a marker.  For the last message
content `"[se[search]arch]"` the cleaned content is `"[search]"`, which still
contains a recognized marker — the claim that the cleaned content contains
zero marker occurrences fails here. -/
theorem extractSearchDirectives_residual_marker :
    (extractSearchDirectives [⟨.user, .str "[se[search]arch]"⟩]
        (some ⟨.prompt, none, none⟩)).cleanedMessages
      = [⟨.user, .str "[search]"⟩]
    ∧ jsTestCI "[search]" "[search]" = true := by
  constructor
  · decide
  · decide

/-- C5 (amended): the identity passthrough cases, and with a config and a last
message the cleaned list is all messages but the last, in order, plus a copy
of the last message whose content is the single-pass removal of `[search]`
then `[no-search]` (case-insensitive), trimmed; the removal only deletes
characters (the cleaned content is a subsequence of the original), though a
marker re-formed by adjacent text can survive. -/
theorem extractSearchDirectives_cleaning (messages : List ModelMessage)
    (cfg : WebSearchConfig) :
    extractSearchDirectives messages none = ⟨false, messages⟩
    ∧ extractSearchDirectives [] (some cfg) = ⟨false, []⟩
    ∧ (∀ last, messages.getLast? = some last →
        (extractSearchDirectives messages (some cfg)).cleanedMessages
          = messages.dropLast
            ++ [{ last with
                  content := .str (cleanMarkerContent (extractMessageContent last)) }]
        ∧ (cleanMarkerContent (extractMessageContent last)).data.Sublist
            (extractMessageContent last).data) := by
  refine ⟨rfl, rfl, fun last h => ⟨?_, cleanMarkerContent_sublist _⟩⟩
  simp only [extractSearchDirectives, h]

/-- Witness for the amended C5 at a concrete conversation. -/
theorem extractSearchDirectives_cleaning_witness :
    extractSearchDirectives [⟨.user, .str " a [SEARCH] b "⟩] none
      = ⟨false, [⟨.user, .str " a [SEARCH] b "⟩]⟩
    ∧ extractSearchDirectives [] (some ⟨.prompt, none, none⟩) = ⟨false, []⟩
    ∧ ((extractSearchDirectives [⟨.user, .str " a [SEARCH] b "⟩]
          (some ⟨.prompt, none, none⟩)).cleanedMessages
        = List.dropLast [⟨.user, .str " a [SEARCH] b "⟩]
          ++ [{ ModelMessage.mk .user (.str " a [SEARCH] b ") with
                content := .str (cleanMarkerContent
                  (extractMessageContent ⟨.user, .str " a [SEARCH] b "⟩)) }]
        ∧ (cleanMarkerContent
            (extractMessageContent ⟨.user, .str " a [SEARCH] b "⟩)).data.Sublist
            (extractMessageContent ⟨.user, .str " a [SEARCH] b "⟩).data) := by
  have h := extractSearchDirectives_cleaning [⟨.user, .str " a [SEARCH] b "⟩]
    ⟨.prompt, none, none⟩
  exact ⟨h.1, h.2.1, h.2.2 _ rfl⟩

/-- Rendering of one conversation message inside `buildFormattedPrompt`
(`transformers.ts` lines 277-288): `Human:`/`Assistant:` tags for user and
assistant roles, raw text otherwise. -/
def renderConversationMessage (msg : ModelMessage) : String :=
  match msg.role with
  | .user => "Human: " ++ extractMessageContent msg
  | .assistant => "Assistant: " ++ extractMessageContent msg
  | _ => extractMessageContent msg

/-- The conversation section: rendered messages joined by a blank line. -/
def conversationJoin (conversationMessages : List ModelMessage) : String :=
  String.intercalate "\n\n" (conversationMessages.map renderConversationMessage)

/-- `buildFormattedPrompt` (`transformers.ts` lines 264-300): an optional
system block, the conversation joined by blank lines, and a trailing
`Assistant:` cue when the last conversation message is from the user. -/
def buildFormattedPrompt (systemMessages conversationMessages : List ModelMessage) :
    String :=
  let sysBlock :=
    if systemMessages.length > 0 then
      "### SYSTEM INSTRUCTIONS ###\n"
        ++ String.intercalate "\n\n" (systemMessages.map extractMessageContent)
        ++ "\n\n### CONVERSATION ###\n"
    else ""
  let prompt := sysBlock ++ conversationJoin conversationMessages
  match conversationMessages.getLast? with
  | some last => if last.role = .user then prompt ++ "\n\nAssistant:" else prompt
  | none => prompt

/-- The trailing cue appended by `buildFormattedPrompt`, as its own
definition for the statement of C8. -/
def assistantCue (conversationMessages : List ModelMessage) : String :=
  match conversationMessages.getLast? with
  | some last => if last.role = .user then "\n\nAssistant:" else ""
  | none => ""

theorem getLast?_some_ne_nil {l : List ModelMessage} {a : ModelMessage}
    (h : l.getLast? = some a) : l ≠ [] := by
  intro hnil
  subst hnil
  simp [List.getLast?] at h

/-- C8: shape of the formatted prompt.  With no system messages the prompt is
the conversation text plus the cue; with system messages it is the
`### SYSTEM INSTRUCTIONS ###` block (contents joined by a blank line),
the `### CONVERSATION ###` marker, the conversation text and the cue; and the
cue is `"\n\nAssistant:"` exactly when the conversation is non-empty and its
final message has role `user` (otherwise it is empty). -/
theorem buildFormattedPrompt_spec (sys conv : List ModelMessage) :
    (sys = [] → buildFormattedPrompt sys conv = conversationJoin conv ++ assistantCue conv)
    ∧ (sys ≠ [] → buildFormattedPrompt sys conv =
        "### SYSTEM INSTRUCTIONS ###\n"
          ++ String.intercalate "\n\n" (sys.map extractMessageContent)
          ++ "\n\n### CONVERSATION ###\n" ++ conversationJoin conv ++ assistantCue conv)
    ∧ (assistantCue conv = "\n\nAssistant:"
        ↔ conv ≠ [] ∧ conv.getLast?.map ModelMessage.role = some .user)
    ∧ (assistantCue conv ≠ "\n\nAssistant:" → assistantCue conv = "") := by
  have hcue : ∀ pre : String,
      (match conv.getLast? with
        | some last => if last.role = .user then pre ++ "\n\nAssistant:" else pre
        | none => pre) = pre ++ assistantCue conv := by
    intro pre
    cases hc : conv.getLast? with
    | none => simp [assistantCue, hc]
    | some last =>
        by_cases hr : last.role = .user <;> simp [assistantCue, hc, hr]
  refine ⟨?_, ?_, ?_, ?_⟩
  · intro hs
    subst hs
    simpa [buildFormattedPrompt] using hcue (conversationJoin conv)
  · intro hs
    have hlen : sys.length > 0 := List.length_pos.mpr hs
    simp only [buildFormattedPrompt, if_pos hlen]
    rw [hcue]
  · cases hc : conv.getLast? with
    | none => simp [assistantCue, hc]
    | some last =>
        by_cases hr : last.role = .user
        · simp [assistantCue, hc, hr, getLast?_some_ne_nil hc]
        · simp [assistantCue, hc, hr]
  · cases hc : conv.getLast? with
    | none => simp [assistantCue, hc]
    | some last =>
        by_cases hr : last.role = .user <;> simp [assistantCue, hc, hr]

/-- Witness for C8 at a concrete system + conversation pair. -/
theorem buildFormattedPrompt_spec_witness :
    buildFormattedPrompt [⟨.system, .str "be kind"⟩] [⟨.user, .str "hello"⟩] =
        "### SYSTEM INSTRUCTIONS ###\n"
          ++ String.intercalate "\n\n"
              (List.map extractMessageContent [⟨.system, .str "be kind"⟩])
          ++ "\n\n### CONVERSATION ###\n"
          ++ conversationJoin [⟨.user, .str "hello"⟩]
          ++ assistantCue [⟨.user, .str "hello"⟩]
    ∧ (assistantCue [⟨.user, .str "hello"⟩] = "\n\nAssistant:"
        ↔ ([⟨.user, .str "hello"⟩] : List ModelMessage) ≠ []
          ∧ (List.getLast? [⟨.user, .str "hello"⟩]).map ModelMessage.role
              = some .user) := by
  have h := buildFormattedPrompt_spec [⟨.system, .str "be kind"⟩] [⟨.user, .str "hello"⟩]
  exact ⟨h.2.1 (by decide), h.2.2.1⟩

/-- An apostrophe, kept out of string literals. -/
def apos : String := String.singleton (Char.ofNat 39)

/-- Rendering of one result in the default markdown branch of
`formatSearchResults` (`transformers.ts` lines 190-194). -/
def formatSearchResult (index : Nat) (result : WebSearchResult) : String :=
  "### " ++ toString (index + 1) ++ ". " ++ result.title ++ "\n\n" ++ result.snippet
    ++ "\n\n**Source:** [" ++ result.url ++ "](" ++ result.url ++ ")"
    ++ (match result.publishedDate with
        | some d => if d = "" then "" else "\n**Published:** " ++ d
        | none => "")
    ++ "\n"

/-- `formatSearchResults` (`transformers.ts` lines 172-196) in its default
`markdown` format, the only branch reached from `transformToCortensor`: an
explicit placeholder for an empty result list, otherwise the rendered results
joined by a divider. -/
def formatSearchResults (results : List WebSearchResult) (query : String) : String :=
  if results.isEmpty then
    "No search results found for query: \"" ++ query ++ "\""
  else
    String.intercalate "\n---\n\n" (results.enum.map fun p => formatSearchResult p.1 p.2)

/-- The fixed instruction block appended after the search results
(`transformers.ts` line 216). -/
def searchEpilogue : String :=
  "\n\nPlease use the above search results to provide an accurate, up-to-date response. "
    ++ "If the search results are relevant, incorporate the information into your answer. "
    ++ "If they" ++ apos ++ "re not relevant, you can ignore them and provide a general response."

/-- `buildPromptWithSearchResults` (`transformers.ts` lines 205-217): the
plain formatted prompt followed by a delimited web-search section. -/
def buildPromptWithSearchResults (messages : List ModelMessage)
    (searchResults : List WebSearchResult) (searchQuery : String) : String :=
  let systemMessages := messages.filter fun msg => msg.role == .system
  let conversationMessages := messages.filter fun msg => !(msg.role == .system)
  let originalPrompt := buildFormattedPrompt systemMessages conversationMessages
  let formattedResults := formatSearchResults searchResults searchQuery
  originalPrompt ++ "\n\n--- WEB SEARCH RESULTS ---\nSearch Query: \"" ++ searchQuery
    ++ "\"\n\n" ++ formattedResults ++ searchEpilogue

/-- The two custom error classes of `provider.ts` (`ConfigurationError`,
`WebSearchError`), each carrying its message. -/
inductive CortensorErr
  | configurationError (msg : String)
  | webSearchError (msg : String)
deriving DecidableEq, Repr

/-- Outcome of the query-generation HTTP call inside `generateSearchQuery`:
a 2xx response carrying `data.choices?.[0]?.text` (absent pieces give
`none`), a non-2xx status, or a thrown network/parse error. -/
inductive FetchOutcome
  | ok (choiceText : Option String)
  | badStatus (status : Nat)
  | netError
deriving DecidableEq, Repr

/-- `generateSearchQuery` (`transformers.ts` lines 110-163).  Empty message
list gives the fixed fallback; missing credentials raise a
`ConfigurationError`; a non-2xx status raises a `WebSearchError` (both
re-thrown by the function's own catch); a thrown network error degrades to the
extracted last-message content; on success the trimmed choice text is used,
falling back to the user prompt when falsy. -/
def generateSearchQuery (messages : List ModelMessage) (apiKey baseUrl : String)
    (queryFetch : FetchOutcome) : Except CortensorErr String :=
  match messages.getLast? with
  | none => .ok "general information"
  | some lastMessage =>
      let userPrompt := extractMessageContent lastMessage
      if apiKey = "" ∨ baseUrl = "" then
        .error (.configurationError
          "API key and base URL are required for search query generation")
      else
        match queryFetch with
        | .badStatus status =>
            .error (.webSearchError
              ("Failed to generate search query: API request failed with status "
                ++ toString status))
        | .netError => .ok userPrompt
        | .ok choiceText =>
            let trimmed := match choiceText with
              | some t => jsTrimStr t
              | none => ""
            .ok (if trimmed = "" then userPrompt else trimmed)

/-- `handleWebSearch` (`transformers.ts` lines 309-325): invoke the provider
(function shape and object shape receive the same arguments) and wrap any
thrown error into a `WebSearchError`. -/
def handleWebSearch (query : String)
    (provider : String → Nat → SearchProviderOutcome) (maxResults : Nat) :
    Except CortensorErr (List WebSearchResult) :=
  match provider query maxResults with
  | .ok results => .ok results
  | .raise msg => .error (.webSearchError ("Web search failed: " ++ msg))

/-- The slice of `CortensorModelConfig` that `transformToCortensor` reads. -/
structure TransformModelConfig where
  webSearch : Option WebSearchConfig := none
  promptType : Option Nat := none
  promptTemplate : Option String := none
  stream : Option Bool := none
  timeout : Option Nat := none
  maxTokens : Option Nat := none
  temperature : Option Rat := none
  topP : Option Rat := none
  topK : Option Nat := none
  presencePenalty : Option Rat := none
  frequencyPenalty : Option Rat := none

/-- The fields of the inbound OpenAI request that `transformToCortensor`
reads after `JSON.parse`. -/
structure OpenAIRequestR where
  messages : List ModelMessage
  max_tokens : Option Nat := none
  temperature : Option Rat := none
deriving Repr

/-- The downstream Cortensor completion request built by the transformer. -/
structure CortensorRequestR where
  session_id : Nat
  prompt : String
  prompt_type : Nat
  prompt_template : String
  stream : Bool
  timeout : Nat
  client_reference : String
  max_tokens : Nat
  temperature : Rat
  top_p : Rat
  top_k : Nat
  presence_penalty : Rat
  frequency_penalty : Rat
deriving DecidableEq, Repr

/-- `CortensorTransformResult`: the request plus the optional search data the
caller threads into the response transformer. -/
structure CortensorTransformResult where
  request : CortensorRequestR
  webSearchResults : Option (List WebSearchResult) := none
  searchQuery : Option String := none
deriving DecidableEq, Repr

/-- Observable outcome of `transformToCortensor`.  `transformError` is the
generic `Error('Failed to transform request to Cortensor format')` thrown by
the outer catch; `configurationFailure` models a `ConfigurationError`
escaping to the caller (the outcome the spec asserts for missing credentials;
the translated code never produces it). -/
inductive TransformOutcome
  | success (result : CortensorTransformResult)
  | transformError
  | configurationFailure (msg : String)
deriving DecidableEq, Repr

/-- `transformToCortensor` (`transformers.ts` lines 334-431).  The request
body is the already-parsed JSON (`none` models a parse failure), `queryFetch`
is the outcome of the query-generation HTTP call, and `now` stands for
`Date.now()`.  The JS variables `finalPrompt`, `webSearchResults` and
`searchQuery` survive a caught provider failure exactly as in the source: a
query assigned before the provider threw is still attached to the result
(subject to the `if (searchQuery)` truthiness test), while the failed search
leaves `webSearchResults` unassigned and the prompt falls back to the plain
formatted prompt.  A `ConfigurationError` re-thrown by the inner catch is
caught by the outer catch and becomes the generic `transformError`. -/
def transformToCortensor (body : Option OpenAIRequestR) (sessionId : Nat)
    (modelConfig : Option TransformModelConfig) (envApiKey envBaseUrl : String)
    (queryFetch : FetchOutcome) (now : Nat) : TransformOutcome :=
  match body with
  | none => .transformError
  | some openAIRequest =>
      let ws? := modelConfig.bind (·.webSearch)
      let searchDirectives := extractSearchDirectives openAIRequest.messages ws?
      let searchStep : Except Unit (String × Option (List WebSearchResult) × Option String) :=
        match searchDirectives.shouldSearch, ws?.bind (·.provider) with
        | true, some providerFn =>
            match generateSearchQuery searchDirectives.cleanedMessages
                envApiKey envBaseUrl queryFetch with
            | .error (.configurationError _) => .error ()
            | .error (.webSearchError _) => .ok ("", none, none)
            | .ok q =>
                match handleWebSearch q providerFn ((ws?.bind (·.maxResults)).getD 5) with
                | .error _ => .ok ("", none, some q)
                | .ok results =>
                    .ok (buildPromptWithSearchResults searchDirectives.cleanedMessages
                          results q,
                      some results, some q)
        | _, _ => .ok ("", none, none)
      match searchStep with
      | .error _ => .transformError
      | .ok (fp, results?, query?) =>
          let systemMessages :=
            searchDirectives.cleanedMessages.filter fun msg => msg.role == .system
          let conversationMessages :=
            searchDirectives.cleanedMessages.filter fun msg => !(msg.role == .system)
          let finalPrompt :=
            if fp = "" then buildFormattedPrompt systemMessages conversationMessages else fp
          .success {
            request := {
              session_id := sessionId
              prompt := finalPrompt
              prompt_type := (modelConfig.bind (·.promptType)).getD 1
              prompt_template := (modelConfig.bind (·.promptTemplate)).getD ""
              stream := (modelConfig.bind (·.stream)).getD false
              timeout := (modelConfig.bind (·.timeout)).getD 60
              client_reference := "user-request-" ++ toString now
              max_tokens := (modelConfig.bind (·.maxTokens)).getD
                (openAIRequest.max_tokens.getD 128)
              temperature := (modelConfig.bind (·.temperature)).getD
                (openAIRequest.temperature.getD (mkRat 7 10))
              top_p := (modelConfig.bind (·.topP)).getD (mkRat 19 20)
              top_k := (modelConfig.bind (·.topK)).getD 40
              presence_penalty := (modelConfig.bind (·.presencePenalty)).getD 0
              frequency_penalty := (modelConfig.bind (·.frequencyPenalty)).getD 0 }
            webSearchResults := results?
            searchQuery :=
              match query? with
              | some q => if q = "" then none else some q
              | none => none }

/-- C2 counterexample: the search branch is taken, query generation succeeds
with `"france capital"`, and the provider call throws.  The transformer still
succeeds with the plain formatted prompt and no `webSearchResults`, but the
already-assigned `searchQuery` survives into the result — contradicting the
claim that both fields are absent. -/
theorem transformToCortensor_query_survives :
    transformToCortensor
        (some { messages := [⟨.user, .str "[search] capital of France?"⟩] }) 1
        (some { webSearch := some ⟨.prompt, some fun _ _ => .raise "boom", none⟩ })
        "k" "u" (.ok (some "france capital")) 0
      = .success {
          request := {
            session_id := 1
            prompt := "Human: capital of France?\n\nAssistant:"
            prompt_type := 1
            prompt_template := ""
            stream := false
            timeout := 60
            client_reference := "user-request-0"
            max_tokens := 128
            temperature := mkRat 7 10
            top_p := mkRat 19 20
            top_k := 40
            presence_penalty := 0
            frequency_penalty := 0 }
          webSearchResults := none
          searchQuery := some "france capital" } := by
  decide

/-- C2 (amended): whenever the search branch is taken (`shouldSearch` is true
and a provider is configured), query generation succeeds with `q`, and the
provider call throws, `transformToCortensor` still resolves to a successful
result whose `request.prompt` is the plain formatted prompt built from the
cleaned messages without search augmentation and whose `webSearchResults` is
absent; `searchQuery` however is present and equal to `q` whenever `q` is
non-empty (it is absent only for an empty generated query). -/
theorem transformToCortensor_provider_failure
    (req : OpenAIRequestR) (sessionId : Nat) (cfg : TransformModelConfig)
    (ws : WebSearchConfig) (providerFn : String → Nat → SearchProviderOutcome)
    (envApiKey envBaseUrl : String) (queryFetch : FetchOutcome) (now : Nat)
    (q msg : String)
    (hws : cfg.webSearch = some ws)
    (hprov : ws.provider = some providerFn)
    (hsearch : (extractSearchDirectives req.messages (some ws)).shouldSearch = true)
    (hquery : generateSearchQuery
        (extractSearchDirectives req.messages (some ws)).cleanedMessages
        envApiKey envBaseUrl queryFetch = .ok q)
    (hraise : providerFn q (ws.maxResults.getD 5) = .raise msg) :
    transformToCortensor (some req) sessionId (some cfg) envApiKey envBaseUrl
        queryFetch now
      = .success {
          request := {
            session_id := sessionId
            prompt := buildFormattedPrompt
              ((extractSearchDirectives req.messages (some ws)).cleanedMessages.filter
                fun m => m.role == .system)
              ((extractSearchDirectives req.messages (some ws)).cleanedMessages.filter
                fun m => !(m.role == .system))
            prompt_type := (cfg.promptType).getD 1
            prompt_template := (cfg.promptTemplate).getD ""
            stream := (cfg.stream).getD false
            timeout := (cfg.timeout).getD 60
            client_reference := "user-request-" ++ toString now
            max_tokens := (cfg.maxTokens).getD (req.max_tokens.getD 128)
            temperature := (cfg.temperature).getD (req.temperature.getD (mkRat 7 10))
            top_p := (cfg.topP).getD (mkRat 19 20)
            top_k := (cfg.topK).getD 40
            presence_penalty := (cfg.presencePenalty).getD 0
            frequency_penalty := (cfg.frequencyPenalty).getD 0 }
          webSearchResults := none
          searchQuery := if q = "" then none else some q } := by
  simp only [transformToCortensor, Option.some_bind, hws, hprov, hsearch, hquery,
    handleWebSearch, hraise, if_true]

/-- Witness for the amended C2 at a concrete scenario (provider throws after
a successful query generation that returned `"q2"`). -/
theorem transformToCortensor_provider_failure_witness :
    transformToCortensor (some { messages := [⟨.user, .str "hi [SEARCH]"⟩] }) 2
        (some { webSearch := some ⟨.force, some fun _ _ => .raise "down", some 3⟩ })
        "key" "url" .netError 5
      = .success {
          request := {
            session_id := 2
            prompt := buildFormattedPrompt
              ((extractSearchDirectives [⟨.user, .str "hi [SEARCH]"⟩]
                  (some ⟨.force, some fun _ _ => .raise "down", some 3⟩)).cleanedMessages.filter
                fun m => m.role == .system)
              ((extractSearchDirectives [⟨.user, .str "hi [SEARCH]"⟩]
                  (some ⟨.force, some fun _ _ => .raise "down", some 3⟩)).cleanedMessages.filter
                fun m => !(m.role == .system))
            prompt_type := 1
            prompt_template := ""
            stream := false
            timeout := 60
            client_reference := "user-request-5"
            max_tokens := 128
            temperature := mkRat 7 10
            top_p := mkRat 19 20
            top_k := 40
            presence_penalty := 0
            frequency_penalty := 0 }
          webSearchResults := none
          searchQuery := if "hi" = "" then none else some "hi" } :=
  transformToCortensor_provider_failure
    { messages := [⟨.user, .str "hi [SEARCH]"⟩] } 2
    { webSearch := some ⟨.force, some fun _ _ => .raise "down", some 3⟩ }
    ⟨.force, some fun _ _ => .raise "down", some 3⟩ (fun _ _ => .raise "down")
    "key" "url" .netError 5 "hi" "down" rfl rfl (by decide) rfl rfl

/-- C3 counterexample: with the search branch taken and an empty API key, the
`ConfigurationError` raised by `generateSearchQuery` is re-thrown by the inner
catch but then swallowed by the transformer's outer catch, which replaces it
with the generic transform failure — the caller never sees a distinct
configuration error (`.configurationFailure` is never produced). -/
theorem transformToCortensor_config_error_converted :
    transformToCortensor (some { messages := [⟨.user, .str "[search] hi"⟩] }) 9
        (some { webSearch := some ⟨.prompt, some fun _ _ => .ok [], none⟩ })
        "" "u" (.ok (some "q")) 4
      = .transformError := by
  decide

theorem extractSearchDirectives_shouldSearch_shape (messages : List ModelMessage)
    (cfg : WebSearchConfig)
    (h : (extractSearchDirectives messages (some cfg)).shouldSearch = true) :
    ∃ last, messages.getLast? = some last ∧
      (extractSearchDirectives messages (some cfg)).cleanedMessages
        = messages.dropLast
          ++ [{ last with
                content := .str (cleanMarkerContent (extractMessageContent last)) }] := by
  cases hl : messages.getLast? with
  | none => simp [extractSearchDirectives, hl] at h
  | some last => exact ⟨last, rfl, by simp [extractSearchDirectives, hl]⟩

/-- C3 (amended): failure semantics of query generation.  Missing credentials
make `generateSearchQuery` raise a distinct `ConfigurationError`; a thrown
network error degrades to the extracted last-message text; a non-2xx status
raises a `WebSearchError` (it does not degrade to the original text inside the
generator; the transformer then drops only the search augmentation).  At the
transformer level, the re-thrown `ConfigurationError` is converted by the
outer catch into the generic transform failure rather than propagating as a
configuration error. -/
theorem cortensor_queryGeneration_failure_semantics
    (messages : List ModelMessage) (last : ModelMessage)
    (h : messages.getLast? = some last) (apiKey baseUrl : String) :
    ((apiKey = "" ∨ baseUrl = "") → ∀ queryFetch,
        generateSearchQuery messages apiKey baseUrl queryFetch
          = .error (.configurationError
              "API key and base URL are required for search query generation"))
    ∧ (apiKey ≠ "" → baseUrl ≠ "" →
        generateSearchQuery messages apiKey baseUrl .netError
          = .ok (extractMessageContent last))
    ∧ (apiKey ≠ "" → baseUrl ≠ "" → ∀ status,
        generateSearchQuery messages apiKey baseUrl (.badStatus status)
          = .error (.webSearchError
              ("Failed to generate search query: API request failed with status "
                ++ toString status)))
    ∧ (∀ req sessionId (cfg : TransformModelConfig) ws now queryFetch,
        cfg.webSearch = some ws →
        (extractSearchDirectives req.messages (some ws)).shouldSearch = true →
        (ws.provider).isSome = true →
        (apiKey = "" ∨ baseUrl = "") →
        transformToCortensor (some req) sessionId (some cfg) apiKey baseUrl
            queryFetch now
          = .transformError) := by
  refine ⟨?_, ?_, ?_, ?_⟩
  · intro hcred queryFetch
    simp only [generateSearchQuery, h]
    rw [if_pos hcred]
  · intro hk hu
    simp [generateSearchQuery, h, hk, hu]
  · intro hk hu status
    simp [generateSearchQuery, h, hk, hu]
  · intro req sessionId cfg ws now queryFetch hws hsearch hprovSome hcred
    obtain ⟨pf, hpf⟩ := Option.isSome_iff_exists.mp hprovSome
    obtain ⟨last0, hlast, hclean⟩ :=
      extractSearchDirectives_shouldSearch_shape req.messages ws hsearch
    have hq : generateSearchQuery
        (extractSearchDirectives req.messages (some ws)).cleanedMessages
        apiKey baseUrl queryFetch
        = .error (.configurationError
            "API key and base URL are required for search query generation") := by
      have hlc : (extractSearchDirectives req.messages (some ws)).cleanedMessages.getLast?
          = some { last0 with
                   content := .str (cleanMarkerContent (extractMessageContent last0)) } := by
        rw [hclean]
        exact List.getLast?_concat _
      simp only [generateSearchQuery, hlc]
      rw [if_pos hcred]
    simp only [transformToCortensor, Option.some_bind, hws, hpf, hsearch, hq]

/-- Witness for the amended C3, exercising all four failure branches at
concrete inputs. -/
theorem cortensor_queryGeneration_failure_semantics_witness :
    generateSearchQuery [⟨.user, .str "hi"⟩] "" "u" .netError
      = .error (.configurationError
          "API key and base URL are required for search query generation")
    ∧ generateSearchQuery [⟨.user, .str "hi"⟩] "k" "u" .netError
      = .ok (extractMessageContent ⟨.user, .str "hi"⟩)
    ∧ generateSearchQuery [⟨.user, .str "hi"⟩] "k" "u" (.badStatus 500)
      = .error (.webSearchError
          ("Failed to generate search query: API request failed with status "
            ++ toString 500))
    ∧ transformToCortensor (some { messages := [⟨.user, .str "[search] hi"⟩] }) 1
        (some { webSearch := some ⟨.prompt, some fun _ _ => .ok [], none⟩ })
        "" "u" (.ok (some "q")) 0
      = .transformError := by
  have h1 := cortensor_queryGeneration_failure_semantics [⟨.user, .str "hi"⟩]
    ⟨.user, .str "hi"⟩ (by decide) "" "u"
  have h2 := cortensor_queryGeneration_failure_semantics [⟨.user, .str "hi"⟩]
    ⟨.user, .str "hi"⟩ (by decide) "k" "u"
  refine ⟨h1.1 (Or.inl rfl) _, h2.2.1 (by decide) (by decide),
    h2.2.2.1 (by decide) (by decide) 500, ?_⟩
  exact h1.2.2.2 { messages := [⟨.user, .str "[search] hi"⟩] } 1
    { webSearch := some ⟨.prompt, some fun _ _ => .ok [], none⟩ }
    ⟨.prompt, some fun _ _ => .ok [], none⟩ 0 (.ok (some "q"))
    rfl (by decide) rfl (Or.inl rfl)

/-- Usage triple, shared by the downstream response and the outbound
response. -/
structure CortensorUsage where
  prompt_tokens : Nat
  completion_tokens : Nat
  total_tokens : Nat
deriving DecidableEq, Repr

/-- One downstream completion choice; every field may be absent. -/
structure CortensorChoice where
  index : Option Nat := none
  text : Option String := none
  finish_reason : Option String := none
deriving DecidableEq, Repr

/-- Parsed downstream response body (`CortensorResponse`).  A body that fails
to parse, is empty, or lacks the `choices` array (so that
`cortensorData.choices.map` throws) is modelled as `none` at the call site. -/
structure CortensorResponseData where
  id : Option String := none
  created : Option Nat := none
  model : Option String := none
  choices : List CortensorChoice
  usage : Option CortensorUsage := none
deriving DecidableEq, Repr

/-- The synthetic `web_search` tool call attached when search results exist;
its `arguments` JSON payload is modelled structurally as the query and the
results it serializes. -/
structure WebSearchToolCall where
  id : String
  query : String
  results : List WebSearchResult
deriving DecidableEq, Repr

/-- Outbound assistant message. -/
structure OpenAIMessage where
  role : String
  content : String
  tool_calls : Option WebSearchToolCall := none
deriving DecidableEq, Repr

/-- Outbound choice. -/
structure OpenAIChoice where
  index : Nat
  message : OpenAIMessage
  finish_reason : String
deriving DecidableEq, Repr

/-- Outbound OpenAI-shaped response body. -/
structure OpenAIResponse where
  id : String
  object : String
  created : Nat
  model : String
  choices : List OpenAIChoice
  usage : Option CortensorUsage := none
deriving DecidableEq, Repr

/-- The HTTP response returned by `transformToOpenAI`; the body is the
structural form of the JSON text it serializes (well-formed by
construction). -/
structure HttpResponse where
  status : Nat
  statusText : String
  body : OpenAIResponse
deriving DecidableEq, Repr

/-- JS `v || d` for an optional string: the default replaces both a missing
and an empty (falsy) value. -/
def jsOrString (v : Option String) (d : String) : String :=
  match v with
  | some s => if s = "" then d else s
  | none => d

/-- JS `v || d` for an optional number: the default replaces both a missing
and a zero (falsy) value. -/
def jsOrNat (v : Option Nat) (d : Nat) : Nat :=
  match v with
  | some n => if n = 0 then d else n
  | none => d

/-- `createErrorResponse` (`transformers.ts` lines 438-455): the fixed
OpenAI-shaped error body.  `now` stands for `Date.now()` in milliseconds. -/
def createErrorResponse (now : Nat) : OpenAIResponse :=
  { id := "cortensor-error-" ++ toString now
    object := "chat.completion"
    created := now / 1000
    model := "cortensor-model"
    choices := [{
      index := 0
      message := { role := "assistant"
                   content := "Sorry, I encountered an error processing your request." }
      finish_reason := "stop" }]
    usage := none }

/-- `transformToOpenAI` (`transformers.ts` lines 465-548).  The downstream
body is the already-parsed JSON (`none` models any parse or shape failure,
which the catch turns into a 500 error response); on success the status and
status text of the downstream response pass through.  Total by construction:
the function never throws. -/
def transformToOpenAI (downstreamStatus : Nat) (downstreamStatusText : String)
    (body : Option CortensorResponseData)
    (webSearchResults : Option (List WebSearchResult)) (searchQuery : Option String)
    (now : Nat) : HttpResponse :=
  match body with
  | none =>
      { status := 500, statusText := "Internal Server Error"
        body := createErrorResponse now }
  | some cortensorData =>
      let resultsNonempty : Bool :=
        match webSearchResults with
        | some rs => !rs.isEmpty
        | none => false
      let queryTruthy : Bool :=
        match searchQuery with
        | some s => s != ""
        | none => false
      let transformedChoices := cortensorData.choices.enum.map fun p =>
        let message : OpenAIMessage :=
          { role := "assistant"
            content := jsOrString p.2.text ""
            tool_calls :=
              if resultsNonempty && queryTruthy then
                some { id := "call_web_search_" ++ toString now
                       query := searchQuery.getD ""
                       results := webSearchResults.getD [] }
              else none }
        { index := p.2.index.getD p.1
          message := message
          finish_reason :=
            if resultsNonempty then "tool_calls"
            else jsOrString p.2.finish_reason "stop" }
      let transformedUsage : CortensorUsage :=
        match cortensorData.usage with
        | some u => { prompt_tokens := u.prompt_tokens
                      completion_tokens := u.completion_tokens
                      total_tokens := u.total_tokens }
        | none => { prompt_tokens := 0, completion_tokens := 0, total_tokens := 0 }
      { status := downstreamStatus
        statusText := downstreamStatusText
        body := {
          id := jsOrString cortensorData.id ("cortensor-" ++ toString now)
          object := "chat.completion"
          created := jsOrNat cortensorData.created (now / 1000)
          model := jsOrString cortensorData.model "cortensor-model"
          choices := transformedChoices
          usage := some transformedUsage } }

/-- C4: for every malformed, empty or wrongly-shaped downstream body (the
`none` case), `transformToOpenAI` does not throw and returns HTTP 500 with an
OpenAI `chat.completion`-shaped body holding exactly one choice whose message
has role `assistant`, the fixed non-null apology string as content and
`finish_reason` `stop`. -/
theorem transformToOpenAI_malformed (downstreamStatus : Nat)
    (downstreamStatusText : String) (webSearchResults : Option (List WebSearchResult))
    (searchQuery : Option String) (now : Nat) :
    (transformToOpenAI downstreamStatus downstreamStatusText none webSearchResults
        searchQuery now).status = 500
    ∧ (transformToOpenAI downstreamStatus downstreamStatusText none webSearchResults
        searchQuery now).body.object = "chat.completion"
    ∧ (transformToOpenAI downstreamStatus downstreamStatusText none webSearchResults
        searchQuery now).body.choices.length = 1
    ∧ (transformToOpenAI downstreamStatus downstreamStatusText none webSearchResults
        searchQuery now).body.choices.map (fun c => c.message.role) = ["assistant"]
    ∧ (transformToOpenAI downstreamStatus downstreamStatusText none webSearchResults
        searchQuery now).body.choices.map (fun c => c.message.content)
        = ["Sorry, I encountered an error processing your request."]
    ∧ (transformToOpenAI downstreamStatus downstreamStatusText none webSearchResults
        searchQuery now).body.choices.map (fun c => c.finish_reason) = ["stop"] :=
  ⟨rfl, rfl, rfl, rfl, rfl, rfl⟩

/-- C7 counterexample: a downstream body that carries `id: ""` does not lack
an `id`, yet the transformer synthesizes one anyway (JS `||` treats the empty
string as falsy) — so `id` is not synthesized exactly when the field is
lacking. -/
theorem transformToOpenAI_empty_id_synthesized :
    (transformToOpenAI 200 "OK"
        (some { id := some "", created := some 5, model := some "m"
                choices := [{ index := some 0, text := some "x",
                              finish_reason := some "stop" }] })
        none none 7).body.id = "cortensor-7"
    ∧ (some "" : Option String) ≠ none := by
  exact ⟨rfl, by decide⟩

/-- C7 (amended): on a parsed downstream body with no search results
supplied, each outbound choice carries the downstream choice text as its
assistant message content (the empty string for a missing text), `index`
defaults to the position and `finish_reason` to `stop`; usage passes through
1:1 when present and defaults to all zeros when absent; `object` is always
`chat.completion`; and `id`/`created` are synthesized exactly when the
downstream value is lacking or JS-falsy (the empty string for `id`, `0` for
`created`), and preserved otherwise. -/
theorem transformToOpenAI_success_contract (downstreamStatus : Nat)
    (downstreamStatusText : String) (d : CortensorResponseData) (now : Nat) :
    (transformToOpenAI downstreamStatus downstreamStatusText (some d) none none
        now).body.choices
      = d.choices.enum.map (fun p =>
          { index := p.2.index.getD p.1
            message := { role := "assistant", content := jsOrString p.2.text ""
                         tool_calls := none }
            finish_reason := jsOrString p.2.finish_reason "stop" })
    ∧ (∀ u, d.usage = some u →
        (transformToOpenAI downstreamStatus downstreamStatusText (some d) none none
            now).body.usage = some u)
    ∧ (d.usage = none →
        (transformToOpenAI downstreamStatus downstreamStatusText (some d) none none
            now).body.usage = some ⟨0, 0, 0⟩)
    ∧ (transformToOpenAI downstreamStatus downstreamStatusText (some d) none none
        now).body.object = "chat.completion"
    ∧ (transformToOpenAI downstreamStatus downstreamStatusText (some d) none none
        now).body.id = jsOrString d.id ("cortensor-" ++ toString now)
    ∧ (d.id = none →
        (transformToOpenAI downstreamStatus downstreamStatusText (some d) none none
            now).body.id = "cortensor-" ++ toString now)
    ∧ (∀ s, d.id = some s → s ≠ "" →
        (transformToOpenAI downstreamStatus downstreamStatusText (some d) none none
            now).body.id = s)
    ∧ (d.created = none →
        (transformToOpenAI downstreamStatus downstreamStatusText (some d) none none
            now).body.created = now / 1000)
    ∧ (∀ n, d.created = some n → n ≠ 0 →
        (transformToOpenAI downstreamStatus downstreamStatusText (some d) none none
            now).body.created = n) := by
  refine ⟨rfl, ?_, ?_, rfl, rfl, ?_, ?_, ?_, ?_⟩
  · intro u hu
    simp [transformToOpenAI, hu]
  · intro hu
    simp [transformToOpenAI, hu]
  · intro hid
    simp [transformToOpenAI, jsOrString, hid]
  · intro s hid hs
    simp [transformToOpenAI, jsOrString, hid, hs]
  · intro hc
    simp [transformToOpenAI, jsOrNat, hc]
  · intro n hc hn
    simp [transformToOpenAI, jsOrNat, hc, hn]

/-- Witness for the amended C7: Scenario D.  The downstream body with text
`"Paris is the capital."` and `total_tokens` 11 yields that exact content and
usage, `object` is `chat.completion` and the missing `id` is synthesized. -/
theorem transformToOpenAI_success_contract_witness :
    (transformToOpenAI 200 "OK"
        (some { choices := [{ index := some 0, text := some "Paris is the capital.",
                              finish_reason := some "stop" }]
                usage := some ⟨5, 6, 11⟩ })
        none none 3).body.choices.map (fun c => c.message.content)
      = ["Paris is the capital."]
    ∧ (transformToOpenAI 200 "OK"
        (some { choices := [{ index := some 0, text := some "Paris is the capital.",
                              finish_reason := some "stop" }]
                usage := some ⟨5, 6, 11⟩ })
        none none 3).body.usage = some ⟨5, 6, 11⟩
    ∧ (transformToOpenAI 200 "OK"
        (some { choices := [{ index := some 0, text := some "Paris is the capital.",
                              finish_reason := some "stop" }]
                usage := some ⟨5, 6, 11⟩ })
        none none 3).body.object = "chat.completion"
    ∧ (transformToOpenAI 200 "OK"
        (some { choices := [{ index := some 0, text := some "Paris is the capital.",
                              finish_reason := some "stop" }]
                usage := some ⟨5, 6, 11⟩ })
        none none 3).body.id = "cortensor-" ++ toString 3 := by
  have h := transformToOpenAI_success_contract 200 "OK"
    { choices := [{ index := some 0, text := some "Paris is the capital.",
                    finish_reason := some "stop" }]
      usage := some ⟨5, 6, 11⟩ } 3
  refine ⟨?_, h.2.1 ⟨5, 6, 11⟩ rfl, h.2.2.2.1, h.2.2.2.2.2.1 rfl⟩
  rw [h.1]
  decide

/-- Modelled from the spec: token estimate of the budgeted result injector,
`ceil(char_length / 4)`.  The token-budgeted variant itself is missing from
the sources under `src/` (a transformer variant imports its constant
`MAX_INPUT_TOKEN` from `constants`, but the budgeting code and constant are
absent), so the injector is modelled from spec §4.6. -/
def estimateTokens (s : String) : Nat :=
  (s.length + 3) / 4

/-- Modelled from the spec: detailed rendering of one result as injected by
the budgeted variant (`[n] title / URL / content snippet`). -/
def renderBudgetedResult (result : WebSearchResult) : String :=
  result.title ++ "\nURL: " ++ result.url ++ "\nContent: " ++ result.snippet

/-- Modelled from the spec: greedy inclusion of results in their original
order while the cumulative token estimate stays within the remaining budget;
the remainder is dropped. -/
def greedyTakeWithinBudget (budget : Nat) :
    List WebSearchResult → List WebSearchResult
  | [] => []
  | r :: rs =>
      let t := estimateTokens (renderBudgetedResult r)
      if t ≤ budget then r :: greedyTakeWithinBudget (budget - t) rs else []

/-- Modelled from the spec: the token-budgeted result injector.  The
remaining budget is the fixed ceiling minus the estimate of the already-built
base prompt minus a fixed reserve for the search-section headers; when even
the base prompt plus reserve exceeds the ceiling, zero results are included
without erroring. -/
def selectResultsWithinBudget (ceiling reserve : Nat) (basePrompt : String)
    (results : List WebSearchResult) : List WebSearchResult :=
  if ceiling < estimateTokens basePrompt + reserve then []
  else greedyTakeWithinBudget (ceiling - estimateTokens basePrompt - reserve) results

theorem greedyTakeWithinBudget_mono (results : List WebSearchResult) :
    ∀ b1 b2, b1 ≤ b2 →
      (greedyTakeWithinBudget b1 results).length
        ≤ (greedyTakeWithinBudget b2 results).length := by
  induction results with
  | nil => intro b1 b2 h; simp [greedyTakeWithinBudget]
  | cons r rs ih =>
      intro b1 b2 h
      simp only [greedyTakeWithinBudget]
      by_cases h1 : estimateTokens (renderBudgetedResult r) ≤ b1
      · rw [if_pos h1, if_pos (h1.trans h)]
        simpa using ih _ _ (Nat.sub_le_sub_right h _)
      · rw [if_neg h1]
        simp

/-- C9: budget monotonicity of the spec-modelled injector.  For a fixed
result list, base prompt and reserve, raising the token ceiling never
decreases the number of included results; and a ceiling smaller than the base
prompt's own estimate includes zero results without erroring. -/
theorem selectResultsWithinBudget_mono (reserve : Nat) (basePrompt : String)
    (results : List WebSearchResult) (c1 c2 : Nat) (h : c1 ≤ c2) :
    (selectResultsWithinBudget c1 reserve basePrompt results).length
      ≤ (selectResultsWithinBudget c2 reserve basePrompt results).length
    ∧ (∀ c, c < estimateTokens basePrompt →
        selectResultsWithinBudget c reserve basePrompt results = []) := by
  constructor
  · by_cases h1 : c1 < estimateTokens basePrompt + reserve
    · simp [selectResultsWithinBudget, if_pos h1]
    · have h2 : ¬ c2 < estimateTokens basePrompt + reserve := by omega
      rw [selectResultsWithinBudget, if_neg h1, selectResultsWithinBudget, if_neg h2]
      exact greedyTakeWithinBudget_mono results _ _ (by omega)
  · intro c hc
    rw [selectResultsWithinBudget, if_pos (by omega)]

/-- Witness for C9 at a concrete ceiling pair and result list. -/
theorem selectResultsWithinBudget_mono_witness :
    (selectResultsWithinBudget 50 100 "12345678" [⟨"t", "u", "s", none⟩]).length
      ≤ (selectResultsWithinBudget 5000 100 "12345678" [⟨"t", "u", "s", none⟩]).length
    ∧ selectResultsWithinBudget 1 100 "12345678" [⟨"t", "u", "s", none⟩] = [] := by
  have h := selectResultsWithinBudget_mono 100 "12345678" [⟨"t", "u", "s", none⟩]
    50 5000 (by decide)
  exact ⟨h.1, h.2 1 (by decide)⟩

/-! ## Configuration encoding (claim C10)

`cortensorModel` serializes the explicitly provided configuration fields with
`JSON.stringify`, UTF-8-encodes the text and base64-encodes the bytes into the
synthetic model name; `extractModelConfiguration` inverts the chain.  The
base64 layer, the `-config-` name embedding (the regex
`-config-([A-Za-z0-9+/=]+)$` anchored at the end) and the field-defaulting
merge are embedded
faithfully below.  The `JSON.stringify`/`JSON.parse` text layer together with
the UTF-8 step is modelled by the reversible byte serialization of this
section: a record of the same optional fields, serialized field by field. -/

/-- Bytes of a natural number: its base-255 digits followed by the
terminator byte 255. -/
def natBytes (n : Nat) : List Nat :=
  Nat.digits 255 n ++ [255]

/-- Reads base-255 digits up to the terminator byte. -/
def parseNatGo : List Nat → Option (List Nat × List Nat)
  | [] => none
  | b :: rest =>
      if b = 255 then some ([], rest)
      else (parseNatGo rest).map fun p => (b :: p.1, p.2)

/-- Reads one serialized natural number, returning it with the remaining
bytes. -/
def parseNatBytes (bs : List Nat) : Option (Nat × List Nat) :=
  (parseNatGo bs).map fun p => (Nat.ofDigits 255 p.1, p.2)

theorem parseNatGo_append (ds rest : List Nat) (h : ∀ d ∈ ds, d ≠ 255) :
    parseNatGo (ds ++ 255 :: rest) = some (ds, rest) := by
  induction ds with
  | nil => simp [parseNatGo]
  | cons d ds ih =>
      have hd : d ≠ 255 := h d (by simp)
      simp [parseNatGo, hd, ih (fun x hx => h x (by simp [hx]))]

theorem parseNatBytes_natBytes (n : Nat) (rest : List Nat) :
    parseNatBytes (natBytes n ++ rest) = some (n, rest) := by
  have h : ∀ d ∈ Nat.digits 255 n, d ≠ 255 := fun d hd =>
    Nat.ne_of_lt (Nat.digits_lt_base (by norm_num) hd)
  have hgo := parseNatGo_append (Nat.digits 255 n) rest h
  simp only [natBytes, List.append_assoc, List.singleton_append] at hgo ⊢
  simp [parseNatBytes, hgo, Nat.ofDigits_digits]

/-- All bytes below 256, as `Buffer` requires. -/
def ValidBytes (bs : List Nat) : Prop :=
  ∀ x ∈ bs, x < 256

theorem ValidBytes.append {a b : List Nat} (ha : ValidBytes a) (hb : ValidBytes b) :
    ValidBytes (a ++ b) := by
  intro x hx
  rcases List.mem_append.mp hx with h | h
  · exact ha x h
  · exact hb x h

theorem validBytes_natBytes (n : Nat) : ValidBytes (natBytes n) := by
  intro x hx
  rcases List.mem_append.mp hx with h | h
  · exact (Nat.digits_lt_base (by norm_num) h).trans (by norm_num)
  · simp at h
    omega

/-- Bytes of an integer: a sign byte then the magnitude. -/
def intBytes (i : Int) : List Nat :=
  (if i < 0 then 1 else 0) :: natBytes i.natAbs

/-- Reads one serialized integer. -/
def parseIntBytes (bs : List Nat) : Option (Int × List Nat) :=
  match bs with
  | 0 :: rest => (parseNatBytes rest).map fun p => ((p.1 : Int), p.2)
  | 1 :: rest => (parseNatBytes rest).map fun p => (-(p.1 : Int), p.2)
  | _ => none

theorem parseIntBytes_intBytes (i : Int) (rest : List Nat) :
    parseIntBytes (intBytes i ++ rest) = some (i, rest) := by
  by_cases h : i < 0
  · have hsign : intBytes i ++ rest = 1 :: (natBytes i.natAbs ++ rest) := by
      simp [intBytes, h]
    have habs : -(↑i.natAbs : Int) = i := by omega
    rw [hsign]
    show (parseNatBytes (natBytes i.natAbs ++ rest)).map
        (fun p => (-(p.1 : Int), p.2)) = some (i, rest)
    rw [parseNatBytes_natBytes]
    show some ((-(i.natAbs : Int), rest)) = some (i, rest)
    rw [habs]
  · have hsign : intBytes i ++ rest = 0 :: (natBytes i.natAbs ++ rest) := by
      simp [intBytes, h]
    have habs : (↑i.natAbs : Int) = i := by omega
    rw [hsign]
    show (parseNatBytes (natBytes i.natAbs ++ rest)).map
        (fun p => ((p.1 : Int), p.2)) = some (i, rest)
    rw [parseNatBytes_natBytes]
    show some (((i.natAbs : Int), rest)) = some (i, rest)
    rw [habs]

theorem validBytes_intBytes (i : Int) : ValidBytes (intBytes i) := by
  intro x hx
  rcases List.mem_cons.mp hx with h | h
  · subst h
    split <;> omega
  · exact validBytes_natBytes _ x h

/-- Bytes of a rational: numerator then denominator. -/
def ratBytes (q : Rat) : List Nat :=
  intBytes q.num ++ natBytes q.den

/-- Reads one serialized rational. -/
def parseRatBytes (bs : List Nat) : Option (Rat × List Nat) :=
  (parseIntBytes bs).bind fun p =>
    (parseNatBytes p.2).map fun q => (mkRat p.1 q.1, q.2)

theorem parseRatBytes_ratBytes (q : Rat) (rest : List Nat) :
    parseRatBytes (ratBytes q ++ rest) = some (q, rest) := by
  simp [ratBytes, parseRatBytes, List.append_assoc, parseIntBytes_intBytes,
    parseNatBytes_natBytes, Rat.mkRat_self]

theorem validBytes_ratBytes (q : Rat) : ValidBytes (ratBytes q) :=
  (validBytes_intBytes q.num).append (validBytes_natBytes q.den)

/-- Bytes of a boolean. -/
def boolBytes (b : Bool) : List Nat :=
  [if b then 1 else 0]

/-- Reads one serialized boolean. -/
def parseBoolBytes (bs : List Nat) : Option (Bool × List Nat) :=
  match bs with
  | 0 :: rest => some (false, rest)
  | 1 :: rest => some (true, rest)
  | _ => none

theorem parseBoolBytes_boolBytes (b : Bool) (rest : List Nat) :
    parseBoolBytes (boolBytes b ++ rest) = some (b, rest) := by
  cases b <;> simp [boolBytes, parseBoolBytes]

theorem validBytes_boolBytes (b : Bool) : ValidBytes (boolBytes b) := by
  intro x hx
  cases b <;> simp [boolBytes] at hx <;> omega

/-- Bytes of a character sequence: each code point serialized in turn. -/
def charListBytes (cs : List Char) : List Nat :=
  (cs.map fun c => natBytes c.toNat).flatten

/-- Reads `k` serialized characters. -/
def parseCharsBytes : Nat → List Nat → Option (List Char × List Nat)
  | 0, bs => some ([], bs)
  | k + 1, bs =>
      (parseNatBytes bs).bind fun p =>
        (parseCharsBytes k p.2).map fun q => (Char.ofNat p.1 :: q.1, q.2)

theorem parseCharsBytes_charListBytes (cs : List Char) (rest : List Nat) :
    parseCharsBytes cs.length (charListBytes cs ++ rest) = some (cs, rest) := by
  induction cs with
  | nil => simp [charListBytes, parseCharsBytes]
  | cons c cs ih =>
      simp [charListBytes, parseCharsBytes, List.append_assoc, parseNatBytes_natBytes,
        Char.ofNat_toNat] at ih ⊢
      simp [ih]

theorem validBytes_charListBytes (cs : List Char) : ValidBytes (charListBytes cs) := by
  induction cs with
  | nil => intro x hx; simp [charListBytes] at hx
  | cons c cs ih =>
      intro x hx
      simp only [charListBytes, List.map_cons, List.flatten_cons] at hx
      rcases List.mem_append.mp hx with h | h
      · exact validBytes_natBytes _ x h
      · exact ih x h

/-- Bytes of a string: the character count then the characters. -/
def stringBytes (s : String) : List Nat :=
  natBytes s.length ++ charListBytes s.data

/-- Reads one serialized string. -/
def parseStringBytes (bs : List Nat) : Option (String × List Nat) :=
  (parseNatBytes bs).bind fun p =>
    (parseCharsBytes p.1 p.2).map fun q => (String.mk q.1, q.2)

theorem parseStringBytes_stringBytes (s : String) (rest : List Nat) :
    parseStringBytes (stringBytes s ++ rest) = some (s, rest) := by
  have h1 : stringBytes s ++ rest
      = natBytes s.data.length ++ (charListBytes s.data ++ rest) := by
    rw [stringBytes, List.append_assoc]
    rfl
  rw [parseStringBytes, h1, parseNatBytes_natBytes]

  simp only [Option.some_bind]
  rw [parseCharsBytes_charListBytes]
  rfl

theorem validBytes_stringBytes (s : String) : ValidBytes (stringBytes s) :=
  (validBytes_natBytes _).append (validBytes_charListBytes _)

/-- Bytes of an optional value: a presence byte then the payload. -/
def optBytes (f : α → List Nat) : Option α → List Nat
  | none => [0]
  | some x => 1 :: f x

/-- Reads one serialized optional value. -/
def parseOptBytes (f : List Nat → Option (α × List Nat)) :
    List Nat → Option (Option α × List Nat)
  | 0 :: rest => some (none, rest)
  | 1 :: rest => (f rest).map fun p => (some p.1, p.2)
  | _ => none

theorem parseOptBytes_optBytes {α} (f : α → List Nat)
    (pf : List Nat → Option (α × List Nat))
    (hf : ∀ x rest, pf (f x ++ rest) = some (x, rest)) (v : Option α)
    (rest : List Nat) :
    parseOptBytes pf (optBytes f v ++ rest) = some (v, rest) := by
  cases v with
  | none => simp [optBytes, parseOptBytes]
  | some x => simp [optBytes, parseOptBytes, hf]

theorem validBytes_optBytes {α} (f : α → List Nat)
    (hf : ∀ x, ValidBytes (f x)) (v : Option α) : ValidBytes (optBytes f v) := by
  cases v with
  | none => intro x hx; simp [optBytes] at hx; omega
  | some y =>
      intro x hx
      rcases List.mem_cons.mp hx with h | h
      · omega
      · exact hf y x h

/-- The configuration fields `cortensorModel` can encode (sessionId plus the
optional parameter fields; `some` marks a field the caller explicitly
provided).  The claim's scope excludes the web-search provider function, so no
`webSearch` member is carried. -/
structure EncodableConfig where
  sessionId : Nat
  modelName : Option String := none
  temperature : Option Rat := none
  maxTokens : Option Nat := none
  topP : Option Rat := none
  topK : Option Nat := none
  presencePenalty : Option Rat := none
  frequencyPenalty : Option Rat := none
  stream : Option Bool := none
  timeout : Option Nat := none
  promptType : Option Nat := none
  promptTemplate : Option String := none
deriving DecidableEq, Repr

/-- Byte serialization of the encoded configuration (the modelled
`JSON.stringify` + UTF-8 step). -/
def configBytes (c : EncodableConfig) : List Nat :=
  natBytes c.sessionId
    ++ optBytes stringBytes c.modelName
    ++ optBytes ratBytes c.temperature
    ++ optBytes natBytes c.maxTokens
    ++ optBytes ratBytes c.topP
    ++ optBytes natBytes c.topK
    ++ optBytes ratBytes c.presencePenalty
    ++ optBytes ratBytes c.frequencyPenalty
    ++ optBytes boolBytes c.stream
    ++ optBytes natBytes c.timeout
    ++ optBytes natBytes c.promptType
    ++ optBytes stringBytes c.promptTemplate

/-- Byte deserialization of the encoded configuration (the modelled
`JSON.parse` step); fails on trailing bytes. -/
def parseConfig (bs : List Nat) : Option EncodableConfig :=
  (parseNatBytes bs).bind fun p0 =>
  (parseOptBytes parseStringBytes p0.2).bind fun p1 =>
  (parseOptBytes parseRatBytes p1.2).bind fun p2 =>
  (parseOptBytes parseNatBytes p2.2).bind fun p3 =>
  (parseOptBytes parseRatBytes p3.2).bind fun p4 =>
  (parseOptBytes parseNatBytes p4.2).bind fun p5 =>
  (parseOptBytes parseRatBytes p5.2).bind fun p6 =>
  (parseOptBytes parseRatBytes p6.2).bind fun p7 =>
  (parseOptBytes parseBoolBytes p7.2).bind fun p8 =>
  (parseOptBytes parseNatBytes p8.2).bind fun p9 =>
  (parseOptBytes parseNatBytes p9.2).bind fun p10 =>
  (parseOptBytes parseStringBytes p10.2).bind fun p11 =>
  if p11.2 = [] then
    some { sessionId := p0.1, modelName := p1.1, temperature := p2.1,
           maxTokens := p3.1, topP := p4.1, topK := p5.1,
           presencePenalty := p6.1, frequencyPenalty := p7.1, stream := p8.1,
           timeout := p9.1, promptType := p10.1, promptTemplate := p11.1 }
  else none

set_option maxHeartbeats 2000000 in
theorem parseConfig_configBytes (c : EncodableConfig) :
    parseConfig (configBytes c) = some c := by
  have hs := parseOptBytes_optBytes stringBytes parseStringBytes
    parseStringBytes_stringBytes
  have hr := parseOptBytes_optBytes ratBytes parseRatBytes parseRatBytes_ratBytes
  have hn := parseOptBytes_optBytes natBytes parseNatBytes parseNatBytes_natBytes
  have hb := parseOptBytes_optBytes boolBytes parseBoolBytes parseBoolBytes_boolBytes
  have hs0 : ∀ v, parseOptBytes parseStringBytes (optBytes stringBytes v)
      = some (v, []) := fun v => by simpa using hs v []
  simp [configBytes, parseConfig, List.append_assoc, parseNatBytes_natBytes,
    hs, hr, hn, hb, hs0]

theorem validBytes_configBytes (c : EncodableConfig) : ValidBytes (configBytes c) :=
  ((((((((((((validBytes_natBytes c.sessionId).append
    (validBytes_optBytes _ validBytes_stringBytes c.modelName)).append
    (validBytes_optBytes _ validBytes_ratBytes c.temperature)).append
    (validBytes_optBytes _ validBytes_natBytes c.maxTokens)).append
    (validBytes_optBytes _ validBytes_ratBytes c.topP)).append
    (validBytes_optBytes _ validBytes_natBytes c.topK)).append
    (validBytes_optBytes _ validBytes_ratBytes c.presencePenalty)).append
    (validBytes_optBytes _ validBytes_ratBytes c.frequencyPenalty)).append
    (validBytes_optBytes _ validBytes_boolBytes c.stream)).append
    (validBytes_optBytes _ validBytes_natBytes c.timeout)).append
    (validBytes_optBytes _ validBytes_natBytes c.promptType)).append
    (validBytes_optBytes _ validBytes_stringBytes c.promptTemplate))

/-- The serialized configuration is never empty (its first byte exists). -/
theorem configBytes_ne_nil (c : EncodableConfig) : configBytes c ≠ [] := by
  intro h
  have : natBytes c.sessionId ≠ [] := by
    simp [natBytes]
  simp only [configBytes, List.append_assoc] at h
  exact this (List.append_eq_nil.mp h).1

/-- The standard base64 alphabet used by `Buffer.toString('base64')`. -/
def b64Alphabet : List Char :=
  "ABCDEFGHIJKLMNOPQRSTUVWXYZabcdefghijklmnopqrstuvwxyz0123456789+/".data

/-- Character for a 6-bit group. -/
def b64Char (i : Nat) : Char :=
  b64Alphabet.getD i 'A'

/-- Value of a base64 character. -/
def b64Val (c : Char) : Option Nat :=
  b64Alphabet.indexOf? c

/-- `Buffer.from(bytes).toString('base64')`: three bytes become four
characters, with `=` padding for one- and two-byte tails. -/
def encodeB64 : List Nat → List Char
  | [] => []
  | [a] => [b64Char (a / 4), b64Char (a % 4 * 16), '=', '=']
  | [a, b] =>
      [b64Char (a / 4), b64Char (a % 4 * 16 + b / 16), b64Char (b % 16 * 4), '=']
  | a :: b :: c :: rest =>
      b64Char (a / 4) :: b64Char (a % 4 * 16 + b / 16)
        :: b64Char (b % 16 * 4 + c / 64) :: b64Char (c % 64) :: encodeB64 rest

/-- `Buffer.from(s, 'base64')` on well-formed input: four characters back to
three bytes, with `=` padding closing the string. -/
def decodeB64 : List Char → Option (List Nat)
  | [] => some []
  | c1 :: c2 :: c3 :: c4 :: rest =>
      (b64Val c1).bind fun v1 =>
      (b64Val c2).bind fun v2 =>
        if c3 = '=' then
          if c4 = '=' ∧ rest = [] then some [v1 * 4 + v2 / 16] else none
        else
          (b64Val c3).bind fun v3 =>
            if c4 = '=' then
              if rest = [] then some [v1 * 4 + v2 / 16, v2 % 16 * 16 + v3 / 4]
              else none
            else
              (b64Val c4).bind fun v4 =>
                (decodeB64 rest).map fun bs =>
                  (v1 * 4 + v2 / 16) :: (v2 % 16 * 16 + v3 / 4)
                    :: (v3 % 4 * 64 + v4) :: bs
  | _ => none

theorem b64Val_b64Char : ∀ v, v < 64 → b64Val (b64Char v) = some v := by
  decide

theorem b64Char_ne_eqChar : ∀ v, v < 64 → b64Char v ≠ '=' := by
  decide

theorem decodeB64_encodeB64 (bytes : List Nat) (h : ValidBytes bytes) :
    decodeB64 (encodeB64 bytes) = some bytes := by
  induction bytes using encodeB64.induct with
  | case1 => rfl
  | case2 a =>
      have ha : a < 256 := h a (by simp)
      simp [encodeB64, decodeB64, b64Val_b64Char _ (by omega : a / 4 < 64),
        b64Val_b64Char _ (by omega : a % 4 * 16 < 64)]
      omega
  | case3 a b =>
      have ha : a < 256 := h a (by simp)
      have hb : b < 256 := h b (by simp)
      simp [encodeB64, decodeB64, b64Val_b64Char _ (by omega : a / 4 < 64),
        b64Val_b64Char _ (by omega : a % 4 * 16 + b / 16 < 64),
        b64Val_b64Char _ (by omega : b % 16 * 4 < 64),
        b64Char_ne_eqChar _ (by omega : b % 16 * 4 < 64)]
      omega
  | case4 a b c rest ih =>
      have ha : a < 256 := h a (by simp)
      have hb : b < 256 := h b (by simp)
      have hc : c < 256 := h c (by simp)
      have hrest : ValidBytes rest := fun x hx => h x (by simp [hx])
      simp [encodeB64, decodeB64, b64Val_b64Char _ (by omega : a / 4 < 64),
        b64Val_b64Char _ (by omega : a % 4 * 16 + b / 16 < 64),
        b64Val_b64Char _ (by omega : b % 16 * 4 + c / 64 < 64),
        b64Val_b64Char _ (by omega : c % 64 < 64),
        b64Char_ne_eqChar _ (by omega : b % 16 * 4 + c / 64 < 64),
        b64Char_ne_eqChar _ (by omega : c % 64 < 64),
        ih hrest]
      omega

/-- The character class of the extraction regex, `[A-Za-z0-9+/=]`. -/
def b64ClassChar (c : Char) : Bool :=
  c.isAlpha || c.isDigit || c == '+' || c == '/' || c == '='

theorem b64ClassChar_b64Char (i : Nat) : b64ClassChar (b64Char i) = true := by
  by_cases h : i < 64
  · have hall : ∀ j, j < 64 → b64ClassChar (b64Char j) = true := by decide
    exact hall i h
  · rw [b64Char, List.getD_eq_default]
    · decide
    · have hlen : b64Alphabet.length = 64 := by decide
      omega

theorem b64ClassChar_eqChar : b64ClassChar (Char.ofNat 61) = true := by
  decide

theorem encodeB64_class (bytes : List Nat) :
    ∀ ch ∈ encodeB64 bytes, b64ClassChar ch = true := by
  induction bytes using encodeB64.induct with
  | case1 => simp [encodeB64]
  | case2 a =>
      simp [encodeB64, b64ClassChar_b64Char]
      decide
  | case3 a b =>
      simp [encodeB64, b64ClassChar_b64Char]
      decide
  | case4 a b c rest ih =>
      simp [encodeB64, b64ClassChar_b64Char]
      exact ih

theorem encodeB64_ne_nil : ∀ (bytes : List Nat), bytes ≠ [] → encodeB64 bytes ≠ []
  | [], h => absurd rfl h
  | [_], _ => by simp [encodeB64]
  | [_, _], _ => by simp [encodeB64]
  | _ :: _ :: _ :: _, _ => by simp [encodeB64]

theorem takeWhile_append_of_all {α} (p : α → Bool) (xs ys : List α)
    (h : ∀ x ∈ xs, p x = true) :
    (xs ++ ys).takeWhile p = xs ++ ys.takeWhile p := by
  induction xs with
  | nil => simp
  | cons a as ih =>
      simp [List.takeWhile_cons, h a (by simp),
        ih (fun x hx => h x (by simp [hx]))]

/-- The regex match `modelName.match(-config-([A-Za-z0-9+/=]+)$)` of
`extractModelConfiguration` (`provider.ts` line 138).  A successful match must
end at the end of the string with a non-empty run of class characters, and the
eight characters before that run must be `-config-`; the captured run is
necessarily the maximal class-character suffix, since the padding `-` of
`-config-` is itself outside the class.  The capture is computed from the
reversed string. -/
def matchConfigSuffix (s : List Char) : Option (List Char) :=
  let capRev := s.reverse.takeWhile b64ClassChar
  if capRev = [] then none
  else if ("-config-".data.reverse).isPrefixOf (s.reverse.drop capRev.length) = true then
    some capRev.reverse
  else none

theorem matchConfigSuffix_embed (m : String) (cap : List Char)
    (hne : cap ≠ []) (hclass : ∀ ch ∈ cap, b64ClassChar ch = true) :
    matchConfigSuffix ((m ++ "-config-").data ++ cap) = some cap := by
  have hdata : (m ++ "-config-").data = m.data ++ "-config-".data :=
    String.data_append m _
  have hrev : ((m ++ "-config-").data ++ cap).reverse
      = cap.reverse ++ ("-config-".data.reverse ++ m.data.reverse) := by
    rw [hdata, List.reverse_append, List.reverse_append]
  have hrevall : ∀ x ∈ cap.reverse, b64ClassChar x = true := fun x hx =>
    hclass x (List.mem_reverse.mp hx)
  have hdash : b64ClassChar (Char.ofNat 45) = false := by decide
  have hcfg : "-config-".data.reverse
      = Char.ofNat 45 :: "gifnoc".data ++ [Char.ofNat 45] := by decide
  have htail : (("-config-".data.reverse ++ m.data.reverse).takeWhile b64ClassChar) = [] := by
    rw [hcfg]
    simp [List.takeWhile_cons, hdash]
  have h1 : (((m ++ "-config-").data ++ cap).reverse.takeWhile b64ClassChar)
      = cap.reverse := by
    rw [hrev, takeWhile_append_of_all _ _ _ hrevall, htail, List.append_nil]
  have h2 : cap.reverse ≠ [] := by
    simpa using hne
  have h3 : ((m ++ "-config-").data ++ cap).reverse.drop cap.reverse.length
      = "-config-".data.reverse ++ m.data.reverse := by
    rw [hrev]
    exact List.drop_left _ _
  have h4 : ("-config-".data.reverse).isPrefixOf
      ("-config-".data.reverse ++ m.data.reverse) = true := by
    rw [List.isPrefixOf_iff_prefix]
    exact List.prefix_append _ _
  simp only [matchConfigSuffix, h1, h2, if_neg h2, h3, h4, if_pos,
    List.reverse_reverse]
  simp

/-- `DEFAULT_MODEL_CONFIG` from `constants.ts` (the variant imported by
`provider.ts`): the defaults merged over unspecified fields. -/
structure DefaultModelConfig where
  modelName : String
  temperature : Rat
  maxTokens : Nat
  topP : Rat
  topK : Nat
  presencePenalty : Rat
  frequencyPenalty : Rat
  stream : Bool
  timeout : Nat
  promptType : Nat
  promptTemplate : String
deriving DecidableEq, Repr

/-- `DEFAULT_MODEL_CONFIG` values (`constants.ts` lines 11-23); `timeout` is
`60 * 5`. -/
def DEFAULT_MODEL_CONFIG : DefaultModelConfig :=
  { modelName := "cortensor-chat"
    temperature := mkRat 7 10
    maxTokens := 3000
    topP := mkRat 19 20
    topK := 40
    presencePenalty := 0
    frequencyPenalty := 0
    stream := false
    timeout := 60 * 5
    promptType := 1
    promptTemplate := "" }

/-- The fully-defaulted model configuration assembled by
`extractModelConfiguration` (`provider.ts` lines 187-200). -/
structure MergedModelConfig where
  sessionId : Nat
  modelName : String
  temperature : Rat
  maxTokens : Nat
  topP : Rat
  topK : Nat
  presencePenalty : Rat
  frequencyPenalty : Rat
  stream : Bool
  timeout : Nat
  promptType : Nat
  promptTemplate : String
deriving DecidableEq, Repr

/-- Result of `extractModelConfiguration`. -/
structure ExtractedConfigResult where
  sessionId : Nat
  modelConfig : MergedModelConfig
deriving DecidableEq, Repr

/-- The model-name construction of `cortensorModel` (`provider.ts` lines
458-541) for configurations without a web-search member: reject a falsy
(zero) session id, serialize only the explicitly provided fields, base64 the
bytes and embed them after `-config-` in the synthetic name (the name prefix
is `config.modelName || DEFAULT_MODEL_CONFIG.modelName`).  The provider
registry and the model instantiation do not affect the name and are not
modelled. -/
def cortensorModelName (config : EncodableConfig) : Option String :=
  if config.sessionId = 0 then none
  else
    some (jsOrString config.modelName DEFAULT_MODEL_CONFIG.modelName
      ++ "-config-" ++ String.mk (encodeB64 (configBytes config)))

/-- `extractModelConfiguration` (`provider.ts` lines 110-258) on the `model`
field of the parsed request body (the surrounding `JSON.parse` of the request
and the `.model` projection are modelled by passing the model name directly;
every `throw` collapses to `none`).  The captured base64 suffix is decoded,
the configuration parsed, a falsy (zero) session id rejected, and every
unspecified field merged from `DEFAULT_MODEL_CONFIG` with `??`. -/
def extractModelConfiguration (modelName : String) : Option ExtractedConfigResult :=
  (matchConfigSuffix modelName.data).bind fun configB64 =>
  (decodeB64 configB64).bind fun bytes =>
  (parseConfig bytes).bind fun decodedConfig =>
  if decodedConfig.sessionId = 0 then none
  else
    some {
      sessionId := decodedConfig.sessionId
      modelConfig := {
        sessionId := decodedConfig.sessionId
        modelName := decodedConfig.modelName.getD DEFAULT_MODEL_CONFIG.modelName
        temperature := decodedConfig.temperature.getD DEFAULT_MODEL_CONFIG.temperature
        maxTokens := decodedConfig.maxTokens.getD DEFAULT_MODEL_CONFIG.maxTokens
        topP := decodedConfig.topP.getD DEFAULT_MODEL_CONFIG.topP
        topK := decodedConfig.topK.getD DEFAULT_MODEL_CONFIG.topK
        presencePenalty :=
          decodedConfig.presencePenalty.getD DEFAULT_MODEL_CONFIG.presencePenalty
        frequencyPenalty :=
          decodedConfig.frequencyPenalty.getD DEFAULT_MODEL_CONFIG.frequencyPenalty
        stream := decodedConfig.stream.getD DEFAULT_MODEL_CONFIG.stream
        timeout := decodedConfig.timeout.getD DEFAULT_MODEL_CONFIG.timeout
        promptType := decodedConfig.promptType.getD DEFAULT_MODEL_CONFIG.promptType
        promptTemplate :=
          decodedConfig.promptTemplate.getD DEFAULT_MODEL_CONFIG.promptTemplate } }

/-- C10: round-trip of the configuration encoding.  For every configuration
with a non-zero numeric `sessionId` and any subset of explicitly provided
parameter fields (no web-search provider involved), `cortensorModel` produces
a synthetic `-config-{base64}` model name, and `extractModelConfiguration`
applied to that name recovers the same `sessionId`, every explicitly provided
field with its provided value, and fills every unspecified field with the
`DEFAULT_MODEL_CONFIG` default. -/
theorem extractModelConfiguration_roundtrip (config : EncodableConfig)
    (h : config.sessionId ≠ 0) :
    (cortensorModelName config).isSome = true
    ∧ ∀ name, cortensorModelName config = some name →
        extractModelConfiguration name = some {
          sessionId := config.sessionId
          modelConfig := {
            sessionId := config.sessionId
            modelName := config.modelName.getD DEFAULT_MODEL_CONFIG.modelName
            temperature := config.temperature.getD DEFAULT_MODEL_CONFIG.temperature
            maxTokens := config.maxTokens.getD DEFAULT_MODEL_CONFIG.maxTokens
            topP := config.topP.getD DEFAULT_MODEL_CONFIG.topP
            topK := config.topK.getD DEFAULT_MODEL_CONFIG.topK
            presencePenalty :=
              config.presencePenalty.getD DEFAULT_MODEL_CONFIG.presencePenalty
            frequencyPenalty :=
              config.frequencyPenalty.getD DEFAULT_MODEL_CONFIG.frequencyPenalty
            stream := config.stream.getD DEFAULT_MODEL_CONFIG.stream
            timeout := config.timeout.getD DEFAULT_MODEL_CONFIG.timeout
            promptType := config.promptType.getD DEFAULT_MODEL_CONFIG.promptType
            promptTemplate :=
              config.promptTemplate.getD DEFAULT_MODEL_CONFIG.promptTemplate } } := by
  have hname : cortensorModelName config
      = some (jsOrString config.modelName DEFAULT_MODEL_CONFIG.modelName
          ++ "-config-" ++ String.mk (encodeB64 (configBytes config))) := by
    simp [cortensorModelName, h]
  refine ⟨by simp [hname], fun name hn => ?_⟩
  rw [hname] at hn
  have hname2 := Option.some.inj hn
  subst hname2
  have hdata : (jsOrString config.modelName DEFAULT_MODEL_CONFIG.modelName
        ++ "-config-" ++ String.mk (encodeB64 (configBytes config))).data
      = ((jsOrString config.modelName DEFAULT_MODEL_CONFIG.modelName
          ++ "-config-").data ++ encodeB64 (configBytes config)) := by
    rw [String.data_append]
  have hmatch := matchConfigSuffix_embed
    (jsOrString config.modelName DEFAULT_MODEL_CONFIG.modelName)
    (encodeB64 (configBytes config))
    (encodeB64_ne_nil _ (configBytes_ne_nil config))
    (encodeB64_class _)
  rw [extractModelConfiguration, hdata, hmatch]
  simp only [Option.some_bind]
  rw [decodeB64_encodeB64 _ (validBytes_configBytes config)]
  simp only [Option.some_bind]
  rw [parseConfig_configBytes]
  simp only [Option.some_bind]
  rw [if_neg h]

/-- Witness for C10 at a concrete configuration (explicit `temperature` and
`modelName`, everything else defaulted). -/
theorem extractModelConfiguration_roundtrip_witness :
    (cortensorModelName
        { sessionId := 7, modelName := some "m1", temperature := some (mkRat 1 2) }).isSome
      = true
    ∧ ∀ name,
        cortensorModelName
            { sessionId := 7, modelName := some "m1", temperature := some (mkRat 1 2) }
          = some name →
        extractModelConfiguration name = some {
          sessionId := 7
          modelConfig := {
            sessionId := 7
            modelName := (some "m1").getD DEFAULT_MODEL_CONFIG.modelName
            temperature := (some (mkRat 1 2)).getD DEFAULT_MODEL_CONFIG.temperature
            maxTokens := (none : Option Nat).getD DEFAULT_MODEL_CONFIG.maxTokens
            topP := (none : Option Rat).getD DEFAULT_MODEL_CONFIG.topP
            topK := (none : Option Nat).getD DEFAULT_MODEL_CONFIG.topK
            presencePenalty :=
              (none : Option Rat).getD DEFAULT_MODEL_CONFIG.presencePenalty
            frequencyPenalty :=
              (none : Option Rat).getD DEFAULT_MODEL_CONFIG.frequencyPenalty
            stream := (none : Option Bool).getD DEFAULT_MODEL_CONFIG.stream
            timeout := (none : Option Nat).getD DEFAULT_MODEL_CONFIG.timeout
            promptType := (none : Option Nat).getD DEFAULT_MODEL_CONFIG.promptType
            promptTemplate :=
              (none : Option String).getD DEFAULT_MODEL_CONFIG.promptTemplate } } :=
  extractModelConfiguration_roundtrip
    { sessionId := 7, modelName := some "m1", temperature := some (mkRat 1 2) }
    (by decide)

end Cortensor
